import Mathlib

/-!
Verification model of the torus-website repository.

This file gives a shallow embedding of the two source files of the
repository:

* `src/src/controllers/PreferencesController.js` — a per-address
  preferences/sync controller holding an observable store keyed by
  Ethereum address, plus error/success/billboard/announcements stores;
* the unnamed Vue component (`PopupLogin`) — a login modal dialog.

JavaScript values stored in the observable stores are modelled by the
inductive type `JSVal`; JS truthiness by `jsTruthy`; JS objects by
association lists of string keys.  Asynchronous HTTP calls are modelled
by `Except`-valued inputs supplied to each operation, and side effects
(log lines, API calls, vuex dispatch/commit, timers) are returned
explicitly in an `Effect` list.
-/

/-- Model of a JavaScript value as stored/passed around by the controller.
`errObj s` models an Error-like object whose `.message` is `s`. -/
inductive JSVal where
  | undefined : JSVal
  | jnull : JSVal
  | boolV : Bool → JSVal
  | num : Int → JSVal
  | str : String → JSVal
  | errObj : String → JSVal
  | arr : List JSVal → JSVal
  | obj : List (String × JSVal) → JSVal

/-- JS truthiness for `JSVal` (objects, arrays and Error objects are truthy;
`undefined`, `null`, `false`, `0` and `""` are falsy). -/
def jsTruthy : JSVal → Bool
  | .undefined => false
  | .jnull => false
  | .boolV b => b
  | .num n => n != 0
  | .str s => s != ""
  | .errObj _ => true
  | .arr _ => true
  | .obj _ => true

/-- JS `a || b` for values. -/
def jsOr (a b : JSVal) : JSVal := if jsTruthy a then a else b

/-- JS `o || b` where `o` is a possibly-absent value (absent = `undefined`). -/
def jsOrOpt (o : Option JSVal) (b : JSVal) : JSVal :=
  match o with
  | some v => if jsTruthy v then v else b
  | none => b

/-- JS strict equality `v === s` between an arbitrary value and a string. -/
def jsStrictEqStr (v : JSVal) (s : String) : Bool :=
  match v with
  | .str t => t == s
  | _ => false

/-- First binding of key `k` in a JS object's field list. -/
def findKey (l : List (String × JSVal)) (k : String) : Option JSVal :=
  match l with
  | [] => none
  | (k', v) :: rest => if k' = k then some v else findKey rest k

/-- JS property access `o[k]` (absent key and non-object both give `undefined`). -/
def getField (v : JSVal) (k : String) : JSVal :=
  match v with
  | .obj fields => (findKey fields k).getD .undefined
  | _ => .undefined

/-- JS object spread/assignment `{ ...l, k: v }`: the first binding of an
existing key is replaced in place, a new key is appended. -/
def setKey (l : List (String × JSVal)) (k : String) (v : JSVal) : List (String × JSVal) :=
  match l with
  | [] => [(k, v)]
  | (k', v') :: rest => if k' = k then (k', v) :: rest else (k', v') :: setKey rest k v

/-- `deepmerge`'s notion of a mergeable value (plain objects and arrays). -/
def isMergeableJS : JSVal → Bool
  | .obj _ => true
  | .arr _ => true
  | _ => false

mutual

/-- Model of the `deepmerge` library call made by `updateStore`
(line 311 of PreferencesController.js) with
`overwriteMerge = (destinationArray, sourceArray, _) => sourceArray`
(line 37) as the `arrayMerge` option:

* an array source always wins (the `overwriteMerge` option, and the
  type-mismatch clone when the target is not an array);
* an object source merged into an object target merges key-wise,
  recursing only when the source value is itself mergeable; object
  sources replace non-object targets;
* otherwise the source value wins.

The library only recurses into mergeable source values, and
`updateStore` always calls it with object arguments, so the primitive
`source` cases never arise from the modelled code. -/
def deepmergeVal (t s : JSVal) : JSVal :=
  match s with
  | .arr a => .arr a
  | .obj sf =>
    match t with
    | .obj tf =>
        .obj (mergeFields tf sf ++ sf.filter (fun q => (findKey tf q.1).isNone))
    | _ => .obj sf
  | s' => s'

/-- Key-wise pass of `deepmerge`'s `mergeObject` over the target fields:
a target key also present in the source gets the merged (or source)
value; other target keys keep their value. -/
def mergeFields (tf sf : List (String × JSVal)) : List (String × JSVal) :=
  match tf with
  | [] => []
  | (k, v) :: rest =>
      (match findKey sf k with
       | none => (k, v)
       | some sv => if isMergeableJS sv then (k, deepmergeVal v sv) else (k, sv))
      :: mergeFields rest sf

end

/-- DEFAULT_ACCOUNT_STATE (PreferencesController.js lines 39-53).
`themeGlobal` (line 29, localStorage-dependent) and the result of
`getUserLanguage()` are environment inputs. -/
def DEFAULT_ACCOUNT_STATE (themeGlobal userLanguage : String) : JSVal :=
  .obj
    [ ("selectedCurrency", .str "USD")
    , ("theme", .str themeGlobal)
    , ("locale", .str userLanguage)
    , ("contacts", .arr [])
    , ("permissions", .arr [])
    , ("jwtToken", .str "")
    , ("fetchedPastTx", .arr [])
    , ("pastTransactions", .arr [])
    , ("paymentTx", .arr [])
    , ("defaultPublicAddress", .str "")
    , ("accountType", .str "normal")
    , ("customTokens", .arr [])
    , ("customNfts", .arr []) ]

/-- The controller's main observable store (`this.store`): it holds the
`selectedAddress` field and one account-state record per address. -/
structure PrefStoreState where
  selectedAddress : String
  accounts : List (String × JSVal)

/-- `this.state(address)` (lines 90-93): reads the record for
`address || this.store.getState().selectedAddress`. -/
def stateOf (st : PrefStoreState) (address : String) : Option JSVal :=
  findKey st.accounts (if address = "" then st.selectedAddress else address)

/-- `updateStore(newPartialState, address)` (lines 308-316): deep-merges the
current record for the selected address (or a fresh copy of the default
account state) with the partial state, writes it back under that address,
and returns the merged record. -/
def updateStore (dflt : JSVal) (st : PrefStoreState) (newPartialState : JSVal)
    (address : String) : PrefStoreState × JSVal :=
  let selectedAddress := if address = "" then st.selectedAddress else address
  let currentState := jsOrOpt (findKey st.accounts selectedAddress) dflt
  let mergedState := deepmergeVal currentState newPartialState
  ({ st with accounts := setKey st.accounts selectedAddress mergedState }, mergedState)

/-! ### Transactions -/

/-- A formatted past transaction, as produced by `formatPastTx` and consumed by
`cancelTxCalculate` / stored under `pastTransactions`.  `status` is an
`Option String` because `calculatePastTx` overwrites it with the result of a
possibly-failed on-chain lookup (`undefined` on failure, modelled as `none`).
The cancel-related fields (`is_cancel`, `hasCancel`, `cancelDateInitiated`,
`cancelGas`, `cancelGasPrice`) are mutated in place by `cancelTxCalculate`. -/
structure Tx where
  id : Nat
  transaction_hash : String
  nonce : Nat
  date : Int
  status : Option String
  etherscanLink : String
  gas : Nat
  gasPrice : Nat
  is_cancel : Bool
  hasCancel : Bool
  cancelDateInitiated : String
  cancelGas : Nat
  cancelGasPrice : Nat
deriving DecidableEq

/-- A raw fetched transaction, as filtered by `calculatePastTx` (lines 322-336).
`toAddr` / `fromAddr` model the JS `to` / `from` fields; `""` models an
absent (falsy) field. -/
structure RawTx where
  id : Nat
  transaction_hash : String
  network : String
  status : String
  toAddr : String
  fromAddr : String
  nonce : Nat
  date : Int
deriving DecidableEq

/-- Stable insertion of an indexed transaction into a list sorted by
descending date: the JS comparator `(a, b) => b.date - a.date` (line 365)
puts `a` before `b` exactly when `a.date > b.date`, and `Array.prototype.sort`
is stable, so ties keep their original relative order. -/
def insertByDateDesc (x : Nat × Tx) : List (Nat × Tx) → List (Nat × Tx)
  | [] => [x]
  | y :: ys => if y.2.date < x.2.date then x :: y :: ys else y :: insertByDateDesc x ys

/-- The stable descending-by-date sort `value.sort((a, b) => b.date - a.date)`
of line 365, as a left fold of stable insertions. -/
def sortByDateDesc (l : List (Nat × Tx)) : List (Nat × Tx) :=
  l.foldl (fun acc x => insertByDateDesc x acc) []

/-- The group `nonceMap[n]` built by lines 353-359: the transactions of
`txs` with nonce `n`, paired with their positions, in input order. -/
def groupOf (txs : List Tx) (n : Nat) : List (Nat × Tx) :=
  txs.enum.filter (fun p => p.2.nonce == n)

/-- Line 367: `latestCancelTx.is_cancel = true`. -/
def markLatest (x : Tx) : Tx := { x with is_cancel := true }

/-- Lines 368-375: the in-place update applied to every non-latest member of a
duplicated-nonce group.  `fT`/`fD` model `formatTime`/`formatDate` (from
utils/utils.js, outside src/). -/
def markHasCancel (fT fD : Int → String) (latest x : Tx) : Tx :=
  { x with
    hasCancel := true
    status := some (if latest.status = some "confirmed" then "cancelled" else "cancelling")
    cancelDateInitiated := fT latest.date ++ " - " ++ fD latest.date
    etherscanLink := latest.etherscanLink
    cancelGas := latest.gas
    cancelGasPrice := latest.gasPrice }

/-- The final value of the transaction at position `i` of `pastTx` after
`cancelTxCalculate` has processed every nonce group. -/
def cancelStep (fT fD : Int → String) (txs : List Tx) (i : Nat) (x : Tx) : Tx :=
  let g := groupOf txs x.nonce
  if g.length ≤ 1 then x
  else
    match (sortByDateDesc g).head? with
    | none => x
    | some (j, latest) => if i = j then markLatest x else markHasCancel fT fD latest x

/-- `cancelTxCalculate(pastTx)` (lines 352-380): groups the transactions by
nonce, and in every group of more than one transaction marks the first
transaction of maximal date as the cancel transaction and rewrites the
others; the (mutated) input array is returned. -/
def cancelTxCalculate (fT fD : Int → String) (pastTx : List Tx) : List Tx :=
  pastTx.enum.map (fun p => cancelStep fT fD pastTx p.1 p.2)

/-! ### Controller environment and effects -/

/-- A custom network record as fetched from the API (`customNetworks`
entries destructured at lines 235-243). -/
structure RawNetwork where
  block_explorer_url : String
  chain_id : Nat
  rpc_url : String
  network_name : String
  symbol : String
  id : Nat
deriving DecidableEq

/-- The network object passed to `this.network.addSupportedNetworks`
(lines 236-243). -/
structure AddedNetwork where
  blockExplorer : String
  chainId : Nat
  host : String
  networkName : String
  ticker : String
  id : Nat
deriving DecidableEq

/-- Lines 236-245: field renaming from the API record to the network object. -/
def toAddedNetwork (n : RawNetwork) : AddedNetwork :=
  { blockExplorer := n.block_explorer_url
    chainId := n.chain_id
    host := n.rpc_url
    networkName := n.network_name
    ticker := n.symbol
    id := n.id }

/-- Observable side effects of controller operations: log lines, HTTP calls,
network-controller and sentry updates, vuex dispatch/commit, user
notifications, and scheduled store writes (`setTimeout`). -/
inductive Effect where
  | log (msg : String)
  | apiCall (name : String)
  | addNetwork (n : AddedNetwork)
  | setSentry (enabled : Bool)
  | dispatch (action : String) (payload : JSVal)
  | commit (mutation : String) (payload : JSVal)
  | notify (link : String)
  | schedulePut (store : String) (v : JSVal) (delayMs : Nat)

/-- Ambient environment of the controller: configuration read at module load
and the helpers imported from outside src/ (utils/utils.js, utils/enums.js),
modelled as opaque data.  `fmt` models `formatPastTx`, `ethStatus` models
`getEthTxStatus(...)` with its `.catch` (`none` = lookup failed), `fT`/`fD`
model `formatTime`/`formatDate`, `parseDate` models `new Date(string)`'s
time value, and `errorTime`/`successTime` model `ERROR_TIME`/`SUCCESS_TIME`. -/
structure Env where
  themeGlobal : String
  userLanguage : String
  errorTime : Nat
  successTime : Nat
  netId : String
  fmt : RawTx → String → Tx
  ethStatus : String → Option String
  fT : Int → String
  fD : Int → String
  parseDate : String → Int
  topupActions : String
  sendActions : String
  receiveActions : String
  whiteLabelLocale : JSVal

/-- The default account state in the given environment. -/
def dflt (env : Env) : JSVal :=
  DEFAULT_ACCOUNT_STATE env.themeGlobal env.userLanguage

/-- The controller's observable stores (constructor, lines 72-77). -/
structure CtrlState where
  store : PrefStoreState
  errorStore : JSVal
  successStore : JSVal
  billboardStore : JSVal
  announcementsStore : JSVal

/-- `updateStore` lifted to the full controller state. -/
def updateStoreC (env : Env) (st : CtrlState) (p : JSVal) (address : String) :
    CtrlState × JSVal :=
  let r := updateStore (dflt env) st.store p address
  ({ st with store := r.1 }, r.2)

/-! ### calculatePastTx -/

/-- The filter of lines 323-328: same network, `to` and `from` present, and
the selected address equal (case-insensitively) to `from` or `to`. -/
def txMatches (netId addrLower : String) (x : RawTx) : Bool :=
  x.network == netId && x.toAddr != "" && x.fromAddr != "" &&
    (addrLower == x.fromAddr.toLower || addrLower == x.toAddr.toLower)

/-- Line 343: the guard for `patchPastTx` on a pending transaction whose
resolved status is truthy and differs from the fetched status. -/
def patchCondition (addrLower : String) (x : RawTx) (st : Option String) : Bool :=
  addrLower == x.fromAddr.toLower &&
    (match st with
     | some s => s != "" && s != x.status
     | none => false)

/-- Result of `calculatePastTx`: the list stored under `pastTransactions`
and the `patchPastTx` calls issued (transaction id and resolved status). -/
structure CalcOut where
  pastTransactions : List Tx
  patchCalls : List (Nat × Option String)
deriving DecidableEq

/-- One iteration of the loop at lines 322-336: a matching pending
transaction is pushed onto `pendingTx` (second component), a matching
confirmed transaction is formatted and pushed onto `pastTx` (first
component), and a non-matching transaction is skipped. -/
def calcStep (env : Env) (addrLower : String) (acc : List Tx × List RawTx)
    (x : RawTx) : List Tx × List RawTx :=
  if txMatches env.netId addrLower x then
    if x.status ≠ "confirmed" then (acc.1, acc.2 ++ [x])
    else (acc.1 ++ [env.fmt x addrLower], acc.2)
  else acc

/-- `calculatePastTx(txs, address)` (lines 318-350): partitions the matching
fetched transactions into confirmed (formatted directly) and pending ones
(formatted with the status replaced by the on-chain lookup result), merges
them, and runs `cancelTxCalculate` on the merged list.  The first component
of the fold pair is `pastTx`, the second `pendingTx`. -/
def calculatePastTx (env : Env) (txs : List RawTx) (address : String) : CalcOut :=
  let addrLower := address.toLower
  let pair := txs.foldl (calcStep env addrLower) ([], [])
  let pastTx := pair.1 ++
    pair.2.map (fun x => { env.fmt x addrLower with status := env.ethStatus x.transaction_hash })
  let patches := pair.2.filterMap (fun x =>
    if patchCondition addrLower x (env.ethStatus x.transaction_hash) then
      some (x.id, env.ethStatus x.transaction_hash)
    else none)
  { pastTransactions := cancelTxCalculate env.fT env.fD pastTx
    patchCalls := patches }

/-- Embedding of a formatted transaction into a stored JS value. -/
def txToJSVal (x : Tx) : JSVal :=
  .obj
    [ ("id", .num x.id)
    , ("transaction_hash", .str x.transaction_hash)
    , ("nonce", .num x.nonce)
    , ("date", .num x.date)
    , ("status", match x.status with | some s => .str s | none => .undefined)
    , ("etherscanLink", .str x.etherscanLink)
    , ("gas", .num x.gas)
    , ("gasPrice", .num x.gasPrice)
    , ("is_cancel", .boolV x.is_cancel)
    , ("hasCancel", .boolV x.hasCancel)
    , ("cancelDateInitiated", .str x.cancelDateInitiated)
    , ("cancelGas", .num x.cancelGas)
    , ("cancelGasPrice", .num x.cancelGasPrice) ]

/-- Embedding of a raw fetched transaction into a stored JS value. -/
def rawTxToJSVal (x : RawTx) : JSVal :=
  .obj
    [ ("id", .num x.id)
    , ("transaction_hash", .str x.transaction_hash)
    , ("network", .str x.network)
    , ("status", .str x.status)
    , ("to", .str x.toAddr)
    , ("from", .str x.fromAddr)
    , ("nonce", .num x.nonce)
    , ("date", .num x.date) ]

/-- `calculatePastTx` together with its store write (line 349). -/
def calculatePastTxStore (env : Env) (txs : List RawTx) (address : String)
    (st : CtrlState) : CtrlState × List Effect :=
  let out := calculatePastTx env txs address
  let r := updateStore (dflt env) st.store
    (.obj [("pastTransactions", .arr (out.pastTransactions.map txToJSVal))]) address
  ({ st with store := r.1 }, out.patchCalls.map (fun _ => Effect.apiCall "patchPastTx"))

/-! ### calculatePaymentTx -/

/-- A raw payment/order record as consumed by `calculatePaymentTx`
(lines 277-306). -/
structure RawPayment where
  id : Nat
  date : String
  fromAddr : String
  slicedFrom : String
  action : String
  toAddr : String
  slicedTo : String
  totalAmount : String
  totalAmountString : String
  currencyAmount : String
  currencyAmountString : String
  amount : String
  ethRate : String
  status : String
  etherscanLink : String
  currencyUsed : String
deriving DecidableEq

/-- JS `hay.includes(needle)` on strings. -/
def strContains (hay needle : String) : Bool :=
  if needle = "" then true else (hay.splitOn needle).length ≥ 2

/-- Lines 280-284: classify the payment action by substring membership in the
`ACTIVITY_ACTION_*` constants (from utils/enums.js, outside src/). -/
def paymentAction (env : Env) (x : RawPayment) : String :=
  let lowerCaseAction := x.action.toLower
  if strContains env.topupActions lowerCaseAction then env.topupActions
  else if strContains env.sendActions lowerCaseAction then env.sendActions
  else if strContains env.receiveActions lowerCaseAction then env.receiveActions
  else ""

/-- Lines 286-303: the accumulator entry pushed for a payment record. -/
def formatPayment (env : Env) (x : RawPayment) : JSVal :=
  .obj
    [ ("id", .num x.id)
    , ("date", .num (env.parseDate x.date))
    , ("from", .str x.fromAddr)
    , ("slicedFrom", .str x.slicedFrom)
    , ("action", .str (paymentAction env x))
    , ("to", .str x.toAddr)
    , ("slicedTo", .str x.slicedTo)
    , ("totalAmount", .str x.totalAmount)
    , ("totalAmountString", .str x.totalAmountString)
    , ("currencyAmount", .str x.currencyAmount)
    , ("currencyAmountString", .str x.currencyAmountString)
    , ("amount", .str x.amount)
    , ("ethRate", .str x.ethRate)
    , ("status", .str x.status.toLower)
    , ("etherscanLink", if x.etherscanLink ≠ "" then .str x.etherscanLink else .str "")
    , ("currencyUsed", .str x.currencyUsed) ]

/-- `calculatePaymentTx(txs, address)` (lines 277-306). -/
def calculatePaymentTx (env : Env) (txs : List RawPayment) (address : String)
    (st : CtrlState) : CtrlState :=
  let accumulator := txs.map (formatPayment env)
  { st with store := (updateStore (dflt env) st.store
      (.obj [("paymentTx", .arr accumulator)]) address).1 }

/-! ### Error/success toasts -/

/-- Modelled from the spec: `isErrorObject` (from
controllers/utils/permissionUtils.js, not included under src/) recognizes
Error-like values. -/
def isErrorObject : JSVal → Bool
  | .errObj _ => true
  | _ => false

/-- The `.message` of an Error-like value. -/
def errMessage : JSVal → String
  | .errObj m => m
  | _ => ""

/-- Shallow textual rendering of a JS value. -/
def renderJS : JSVal → String
  | .undefined => "undefined"
  | .jnull => "null"
  | .boolV b => if b then "true" else "false"
  | .num n => toString n
  | .str s => s
  | .errObj m => m
  | .arr _ => "[object Array]"
  | .obj _ => "[object Object]"

/-- Modelled from the spec: `prettyPrintData` (from
controllers/utils/permissionUtils.js, not included under src/) pretty-prints
an object's enumerable entries as "key: value" lines and yields the empty
string on a value with no entries. -/
def prettyPrintData : JSVal → String
  | .obj fields => String.join (fields.map (fun p => p.1 ++ ": " ++ renderJS p.2 ++ "\n"))
  | .arr elems => String.join (elems.enum.map (fun p => toString p.1 ++ ": " ++ renderJS p.2 ++ "\n"))
  | _ => ""

/-- JS `typeof v === 'string'`. -/
def isStrVal : JSVal → Bool
  | .str _ => true
  | _ => false

/-- JS `typeof v === 'object'` (objects, arrays, Error objects and `null`). -/
def isObjTypeof : JSVal → Bool
  | .obj _ => true
  | .arr _ => true
  | .errObj _ => true
  | .jnull => true
  | _ => false

/-- The value written to the error store by `handleError(error)`
(lines 157-168). -/
def handleErrorStored (error : JSVal) : JSVal :=
  if isErrorObject error then
    .str ("Oops, That didn't work. Pls reload and try again. \n" ++ errMessage error)
  else if jsTruthy error && isStrVal error then error
  else if jsTruthy error && isObjTypeof error then
    (let prettyError := prettyPrintData error
     if prettyError ≠ "" then .str ("Error: " ++ prettyError)
     else .str "Something went wrong. Pls try again")
  else jsOr error (.str "")

/-- The value written to the success store by `handleSuccess(message)`
(lines 172-181). -/
def handleSuccessStored (message : JSVal) : JSVal :=
  if jsTruthy message && isStrVal message then message
  else if jsTruthy message && isObjTypeof message then
    (let prettyMessage := prettyPrintData message
     if prettyMessage ≠ "" then .str ("Success: " ++ prettyMessage)
     else .str "Success")
  else jsOr message (.str "")

/-- `handleError(error)` (lines 157-170): writes the user-facing value to the
error store and schedules its reset to `''` after `ERROR_TIME`. -/
def handleError (env : Env) (st : CtrlState) (error : JSVal) : CtrlState × List Effect :=
  ({ st with errorStore := handleErrorStored error },
   [Effect.schedulePut "error" (.str "") env.errorTime])

/-- `handleSuccess(message)` (lines 172-183): writes the user-facing value to
the success store and schedules its reset to `''` after `SUCCESS_TIME`. -/
def handleSuccess (env : Env) (st : CtrlState) (message : JSVal) : CtrlState × List Effect :=
  ({ st with successStore := handleSuccessStored message },
   [Effect.schedulePut "success" (.str "") env.successTime])

/-! ### sync -/

/-- The fields of `user.data` destructured by `sync` (lines 189-202) and
`init` (line 138).  `public_address` is kept as a string because it is used
as a store key. -/
structure SyncUser where
  default_currency : JSVal
  contacts : JSVal
  theme : JSVal
  enable_crash_reporter : JSVal
  locale : JSVal
  permissions : JSVal
  public_address : String
  account_type : JSVal
  default_public_address : JSVal
  customTokens : JSVal
  customNfts : JSVal
  customNetworks : List RawNetwork
  verifier : JSVal
  verifier_id : JSVal

/-- The partial state passed to `updateStore` by `sync` (lines 218-232). -/
def syncUserPartial (env : Env) (u : SyncUser) : JSVal :=
  .obj
    [ ("contacts", u.contacts)
    , ("theme", u.theme)
    , ("crashReport", .boolV (jsTruthy u.enable_crash_reporter))
    , ("selectedCurrency", u.default_currency)
    , ("locale", jsOr env.whiteLabelLocale (jsOr u.locale (.str env.userLanguage)))
    , ("permissions", u.permissions)
    , ("accountType", jsOr u.account_type (.str "normal"))
    , ("defaultPublicAddress", jsOr u.default_public_address (.str u.public_address))
    , ("customTokens", u.customTokens)
    , ("customNfts", u.customNfts) ]

/-- The `finally` block of `sync` (lines 254-274): both order fetches are
fired; each failure is caught and logged; on success the payment and wallet
transactions are recalculated and stored. -/
def syncFinally (env : Env)
    (walletR : Except String (Option (List RawTx)))
    (pastR : Except String (Option (List RawPayment)))
    (address : String) (st : CtrlState) : CtrlState × List Effect :=
  let walletStep :=
    match walletR with
    | .ok w => (w, ([] : List Effect))
    | .error e => (none, [Effect.log ("unable to fetch wallet orders: " ++ e)])
  let pastStep :=
    match pastR with
    | .ok p => (p, ([] : List Effect))
    | .error e => (none, [Effect.log ("unable to fetch past orders: " ++ e)])
  let st1 :=
    match pastStep.1 with
    | some pd => calculatePaymentTx env pd address st
    | none => st
  let afterWallet :=
    match walletStep.1 with
    | some wd =>
        let stf := { st1 with store := (updateStore (dflt env) st1.store
          (.obj [("fetchedPastTx", .arr (wd.map rawTxToJSVal))]) address).1 }
        calculatePastTxStore env wd address stf
    | none => (st1, ([] : List Effect))
  (afterWallet.1,
   [Effect.apiCall "getWalletOrders", Effect.apiCall "getPastOrders"]
     ++ walletStep.2 ++ pastStep.2 ++ afterWallet.2)

/-- `sync(address)` (lines 185-275).  `userResult` models the
`GET /user` call (`.error` = rejected promise, `.ok none` = response without
`data`); `walletR`/`pastR` model the two concurrent order fetches.  The
rejection of the user fetch is caught at line 251 and logged; the function
resolves with the user response when it has data and `undefined` otherwise. -/
def sync (env : Env) (userResult : Except String (Option SyncUser))
    (walletR : Except String (Option (List RawTx)))
    (pastR : Except String (Option (List RawPayment)))
    (address : String) (st : CtrlState) :
    Option SyncUser × CtrlState × List Effect :=
  let tryStep :=
    match userResult with
    | .error e => (none, st, [Effect.log ("warn: " ++ e)])
    | .ok none => (none, st, ([] : List Effect))
    | .ok (some u) =>
        let r := updateStoreC env st (syncUserPartial env u) u.public_address
        (some u, r.1,
          u.customNetworks.map (fun n => Effect.addNetwork (toAddedNetwork n))
            ++ [Effect.setSentry (jsTruthy u.enable_crash_reporter)])
  let fin := syncFinally env walletR pastR address tryStep.2.1
  (tryStep.1, fin.1, [Effect.apiCall "getUser"] ++ tryStep.2.2 ++ fin.2)

/-! ### Announcements -/

/-- An announcement record as fetched from `GET /announcements`. -/
structure Announcement where
  id : Nat
  locale : String
  payload : JSVal

/-- Embedding of an announcement into a stored JS value. -/
def annToJSVal (a : Announcement) : JSVal :=
  .obj [("id", .num a.id), ("locale", .str a.locale), ("payload", a.payload)]

/-- One step of the reduce at lines 857-861: push the announcement onto the
array for its locale, creating the array first when absent. -/
def annStep (acc : List (String × JSVal)) (a : Announcement) : List (String × JSVal) :=
  match findKey acc a.locale with
  | some (.arr xs) => setKey acc a.locale (.arr (xs ++ [annToJSVal a]))
  | _ => setKey acc a.locale (.arr [annToJSVal a])

/-- `getAnnouncementsContents()` (lines 852-867): no-op without a selected
address; on success groups the announcements by locale into the
announcements store; a fetch failure is caught and logged, leaving the
store unchanged. -/
def getAnnouncementsContents (resp : Except String (List Announcement))
    (st : CtrlState) : CtrlState × List Effect :=
  if st.store.selectedAddress = "" then (st, [])
  else
    match resp with
    | .error e => (st, [Effect.apiCall "getAnnouncements", Effect.log e])
    | .ok data =>
        ({ st with announcementsStore := .obj (data.foldl annStep []) },
         [Effect.apiCall "getAnnouncements"])

/-! ### setUserTheme -/

/-- `setUserTheme(payload)` (lines 502-512): returns immediately when the
payload strictly equals the stored theme of the selected address; otherwise
fires the theme `PATCH` (`patchResult`), and on success records the success
toast and merges `{ theme: payload }` into the selected address's record,
while on failure logs the error and records the failure toast. -/
def setUserTheme (env : Env) (patchResult : Except String Unit)
    (st : CtrlState) (payload : String) : CtrlState × List Effect :=
  if jsStrictEqStr (getField (jsOrOpt (stateOf st.store "") .undefined) "theme") payload then
    (st, [])
  else
    match patchResult with
    | .ok _ =>
        let h := handleSuccess env st (.str "navBar.snackSuccessTheme")
        let r := updateStoreC env h.1 (.obj [("theme", .str payload)]) ""
        (r.1, [Effect.apiCall "patchUserTheme"] ++ h.2)
    | .error e =>
        let h := handleError env st (.str "navBar.snackFailTheme")
        (h.1, [Effect.apiCall "patchUserTheme", Effect.log e] ++ h.2)

/-! ### init and its callees -/

/-- `createUser(selectedCurrency, theme, verifier, verifierId, accountType,
address)` (lines 452-473): posts the new user (a rejection propagates to the
caller) and then writes the theme, normal account type and the address as
default public address into the store. -/
def createUser (env : Env) (resp : Except String Unit) (theme : JSVal)
    (address : String) (st : CtrlState) : Except String (CtrlState × List Effect) :=
  match resp with
  | .error e => .error e
  | .ok _ =>
      let r := updateStoreC env st
        (.obj [ ("theme", theme)
              , ("accountType", .str "normal")
              , ("defaultPublicAddress", .str address) ]) address
      .ok (r.1, [Effect.apiCall "postUser"])

/-- `storeUserLogin` (lines 476-500): unless rehydrating, eventually posts a
`recordLogin` (the referrer polling loop is a browser concern and is
collapsed into the single eventual call). -/
def storeUserLogin (rehydrate : Bool) : List Effect :=
  if rehydrate then [] else [Effect.apiCall "recordLogin"]

/-- The per-call inputs of `init` (lines 102-114): its named arguments and
the responses of the HTTP calls it (or its callees) can make.
`messageResp` models `getMessageForSigning` (which catches its own errors
and returns `undefined`, modelled `none`); `verifyResp` the
`POST /auth/verify`; `createUserResp` the `POST /user` inside `createUser`;
`userResult`/`walletR`/`pastR` the calls made by `sync`. -/
structure InitEnv where
  jwtToken : JSVal
  calledFromEmbed : Bool
  verifier : JSVal
  verifierId : JSVal
  rehydrate : Bool
  accountType : String
  postboxAddress : String
  customCurrency : JSVal
  supportedCurrencies : List String
  messageResp : Option String
  signedMessage : String
  verifyResp : Except String JSVal
  createUserResp : Except String Unit
  userResult : Except String (Option SyncUser)
  walletR : Except String (Option (List RawTx))
  pastR : Except String (Option (List RawPayment))

/-- The `dispatch('setSelectedCurrency', ...)` payloads of lines 140-142. -/
def currencyDispatch (ie : InitEnv) (u : SyncUser) (currentState : JSVal) : Effect :=
  match u.default_currency with
  | .str c =>
      if ie.supportedCurrencies.contains c then
        Effect.dispatch "setSelectedCurrency"
          (.obj [("selectedCurrency", .str c), ("origin", .str "store")])
      else
        Effect.dispatch "setSelectedCurrency"
          (.obj [ ("selectedCurrency", jsOr ie.customCurrency (getField currentState "selectedCurrency"))
                , ("origin", .str "home") ])
  | _ =>
      Effect.dispatch "setSelectedCurrency"
        (.obj [ ("selectedCurrency", jsOr ie.customCurrency (getField currentState "selectedCurrency"))
              , ("origin", .str "home") ])

/-- The body of `init` past the early return (lines 115-154). -/
def initBody (env : Env) (ie : InitEnv) (address : String) (st : CtrlState) :
    Except String (JSVal × CtrlState × List Effect) :=
  let authStep : Except String (JSVal × List Effect) :=
    if jsTruthy ie.jwtToken then .ok (.obj [("token", ie.jwtToken)], [])
    else
      match ie.messageResp with
      | none => .error "TypeError: messageToSign is undefined"
      | some m =>
          if m.startsWith "Torus Signin" then
            match ie.verifyResp with
            | .error e => .error e
            | .ok resp =>
                .ok (resp, [Effect.apiCall "postAuthMessage", Effect.apiCall "postAuthVerify"])
          else .error "Cannot sign on invalid message"
  match authStep with
  | .error e => .error e
  | .ok (response, eff0) =>
      let r1 := updateStoreC env st (.obj [("jwtToken", getField response "token")]) address
      let currentState := r1.2
      let s := sync env ie.userResult ie.walletR ie.pastR address r1.1
      match s.1 with
      | some u =>
          let verifierEff :=
            if jsTruthy u.verifier && jsTruthy u.verifier_id then ([] : List Effect)
            else [Effect.apiCall "patchUserVerifier"]
          .ok (u.default_public_address, s.2.1,
            eff0 ++ s.2.2 ++ [currencyDispatch ie u currentState] ++ verifierEff
              ++ storeUserLogin ie.rehydrate)
      | none =>
          let accountState := jsOrOpt (findKey s.2.1.store.accounts ie.postboxAddress) currentState
          match createUser env ie.createUserResp (getField accountState "theme") address s.2.1 with
          | .error e => .error e
          | .ok cu =>
              .ok (.str address, cu.1,
                eff0 ++ s.2.2 ++ cu.2
                  ++ [ Effect.commit "setNewUser" (.boolV true)
                     , Effect.dispatch "setSelectedCurrency"
                         (.obj [ ("selectedCurrency",
                                  jsOr ie.customCurrency (getField accountState "selectedCurrency"))
                               , ("origin", .str "home") ]) ]
                  ++ storeUserLogin ie.rehydrate)

/-- `init({...})` (lines 102-155): when a (truthy) account-state record
already exists for the address, returns its `defaultPublicAddress` (or the
address) at once; otherwise authenticates, stores the JWT, syncs, and either
applies the fetched user data or creates a new user. -/
def init (env : Env) (ie : InitEnv) (address : String) (st : CtrlState) :
    Except String (JSVal × CtrlState × List Effect) :=
  match stateOf st.store address with
  | some r =>
      if jsTruthy r then
        .ok (jsOr (getField r "defaultPublicAddress") (.str address), st, [])
      else initBody env ie address st
  | none => initBody env ie address st

/-! ### getNfts -/

/-- `getNfts(userAddress, network)` (lines 809-817): without a truthy
`jwtToken` in the account state for `userAddress`, resolves with
`{ data: [] }` and makes no HTTP request; otherwise issues the NFTs request
and returns its result (a rejection propagates). -/
def getNfts (apiResp : Except String JSVal) (st : CtrlState)
    (userAddress network : String) : Except String JSVal × List Effect :=
  if jsTruthy (getField (jsOrOpt (stateOf st.store userAddress) .undefined) "jwtToken") then
    (apiResp, [Effect.apiCall ("getNfts:" ++ userAddress ++ ":" ++ network)])
  else
    (.ok (.obj [("data", .arr [])]), [])

/-! ### PopupLogin component -/

/-- The local reactive data of the `PopupLogin` component (part_000,
lines 68-74). -/
structure PopupLoginState where
  showModal : Bool
  viewMoreOptions : Bool
deriving DecidableEq

/-- `closeDialog()` (part_000, lines 148-150): emits the `closeDialog` event
to the parent; the local state is untouched. -/
def closeDialog (s : PopupLoginState) : PopupLoginState × List String :=
  (s, ["closeDialog"])

/-- The close button's click handler: the template binds
`@click="closeDialog"` on the `close-btn` button (part_000, line 7). -/
def closeBtnClick (s : PopupLoginState) : PopupLoginState × List String :=
  closeDialog s

/-! ### Concrete fixtures used by witnesses and counterexamples -/

/-- A concrete `formatPastTx` instance for evaluating witnesses. -/
def fmtW (x : RawTx) (_ : String) : Tx :=
  { id := x.id
    transaction_hash := x.transaction_hash
    nonce := x.nonce
    date := x.date
    status := some x.status
    etherscanLink := ""
    gas := 0
    gasPrice := 0
    is_cancel := false
    hasCancel := false
    cancelDateInitiated := ""
    cancelGas := 0
    cancelGasPrice := 0 }

/-- A concrete environment for evaluating witnesses. -/
def envW : Env :=
  { themeGlobal := "light-blue"
    userLanguage := "en"
    errorTime := 5000
    successTime := 3000
    netId := "mainnet"
    fmt := fmtW
    ethStatus := fun _ => some "confirmed"
    fT := fun _ => "time"
    fD := fun _ => "date"
    parseDate := fun _ => 0
    topupActions := "walletActivity.topup"
    sendActions := "walletActivity.send"
    receiveActions := "walletActivity.receive"
    whiteLabelLocale := .undefined }

/-- A concrete controller state with no account records. -/
def ctrlW : CtrlState :=
  { store := { selectedAddress := "", accounts := [] }
    errorStore := .str ""
    successStore := .str ""
    billboardStore := .obj []
    announcementsStore := .obj [] }

/-- A concrete controller state with one account record for `"0xa"`. -/
def ctrlA : CtrlState :=
  { store := { selectedAddress := "0xa", accounts := [("0xa", .obj [("jwtToken", .str "tok")])] }
    errorStore := .str ""
    successStore := .str ""
    billboardStore := .obj []
    announcementsStore := .obj [] }

/-- Concrete `init` inputs for evaluating witnesses. -/
def ieW : InitEnv :=
  { jwtToken := .str "tok"
    calledFromEmbed := false
    verifier := .str "google"
    verifierId := .str "user"
    rehydrate := false
    accountType := "normal"
    postboxAddress := "0xa"
    customCurrency := .undefined
    supportedCurrencies := ["USD"]
    messageResp := some "Torus Signin"
    signedMessage := "sig"
    verifyResp := .ok (.obj [("token", .str "tok")])
    createUserResp := .ok ()
    userResult := .ok none
    walletR := .ok none
    pastR := .ok none }

/-- A concrete transaction for evaluating witnesses. -/
def txW (n : Nat) (d : Int) : Tx :=
  { id := n
    transaction_hash := "h"
    nonce := n
    date := d
    status := some "confirmed"
    etherscanLink := ""
    gas := 0
    gasPrice := 0
    is_cancel := false
    hasCancel := false
    cancelDateInitiated := ""
    cancelGas := 0
    cancelGasPrice := 0 }

/-! ## Theorems -/

theorem findKey_setKey_self (l : List (String × JSVal)) (k : String) (v : JSVal) :
    findKey (setKey l k v) k = some v := by
  induction l with
  | nil => simp [setKey, findKey]
  | cons p rest ih =>
      obtain ⟨k', v'⟩ := p
      by_cases h : k' = k
      · simp [setKey, findKey, h]
      · simp [setKey, findKey, h, ih]

theorem findKey_setKey_other (l : List (String × JSVal)) (k k' : String) (v : JSVal)
    (h : k' ≠ k) : findKey (setKey l k v) k' = findKey l k' := by
  induction l with
  | nil =>
      have h' : ¬k = k' := fun hh => h hh.symm
      simp [setKey, findKey, h']
  | cons p rest ih =>
      obtain ⟨k'', v''⟩ := p
      by_cases hk : k'' = k
      · subst hk
        have h' : ¬k'' = k' := fun hh => h hh.symm
        simp [setKey, findKey, h']
      · simp [setKey, findKey, hk, ih]

theorem jsTruthy_deepmerge_obj (t : JSVal) (sf : List (String × JSVal)) :
    jsTruthy (deepmergeVal t (.obj sf)) = true := by
  cases t <;> simp [deepmergeVal, jsTruthy]

theorem findKey_append (a b : List (String × JSVal)) (k : String) :
    findKey (a ++ b) k
      = match findKey a k with
        | some v => some v
        | none => findKey b k := by
  induction a with
  | nil => simp [findKey]
  | cons p rest ih =>
      obtain ⟨k0, v0⟩ := p
      by_cases hk : k0 = k
      · simp [findKey, hk]
      · simp [findKey, hk, ih]

theorem findKey_mergeFields (tf sf : List (String × JSVal)) (k : String) :
    findKey (mergeFields tf sf) k
      = (findKey tf k).map (fun v =>
          match findKey sf k with
          | none => v
          | some sv => if isMergeableJS sv then deepmergeVal v sv else sv) := by
  induction tf with
  | nil => simp [mergeFields, findKey]
  | cons q rest ih =>
      obtain ⟨k0, v0⟩ := q
      by_cases hk : k0 = k
      · subst hk
        cases hf : findKey sf k0 with
        | none => simp [mergeFields, findKey, hf]
        | some sv =>
            by_cases hm : isMergeableJS sv = true
            · simp [mergeFields, findKey, hf, hm]
            · simp [mergeFields, findKey, hf, hm]
      · cases hf : findKey sf k0 with
        | none => simp [mergeFields, findKey, hf, hk, ih]
        | some sv =>
            by_cases hm : isMergeableJS sv = true
            · simp [mergeFields, findKey, hf, hm, hk, ih]
            · simp [mergeFields, findKey, hf, hm, hk, ih]

theorem findKey_filter_isNone (tf sf : List (String × JSVal)) (k : String) (sv : JSVal)
    (ht : findKey tf k = none) (hf : findKey sf k = some sv) :
    findKey (sf.filter (fun q => (findKey tf q.1).isNone)) k = some sv := by
  induction sf with
  | nil => simp [findKey] at hf
  | cons p rest ih =>
      obtain ⟨k1, v1⟩ := p
      by_cases hk : k1 = k
      · subst hk
        rw [findKey] at hf
        simp at hf
        subst hf
        simp [List.filter, ht, findKey]
      · rw [findKey] at hf
        rw [if_neg hk] at hf
        by_cases hp : (findKey tf k1).isNone
        · simp [List.filter, hp, findKey, hk, ih hf]
        · simp [List.filter, hp, ih hf]

theorem getField_deepmerge_override (t : JSVal) (sf : List (String × JSVal)) (k : String)
    (sv : JSVal) (hf : findKey sf k = some sv)
    (hov : ∀ v, (if isMergeableJS sv then deepmergeVal v sv else sv) = sv) :
    getField (deepmergeVal t (.obj sf)) k = sv := by
  cases t with
  | obj tf =>
      show getField (.obj (mergeFields tf sf ++ sf.filter (fun q => (findKey tf q.1).isNone))) k = sv
      rw [getField, findKey_append, findKey_mergeFields]
      cases ht : findKey tf k with
      | some v => simp [hf, hov v]
      | none => simp [findKey_filter_isNone tf sf k sv ht hf]
  | undefined => simp [deepmergeVal, getField, hf]
  | jnull => simp [deepmergeVal, getField, hf]
  | boolV b => simp [deepmergeVal, getField, hf]
  | num n => simp [deepmergeVal, getField, hf]
  | str s => simp [deepmergeVal, getField, hf]
  | errObj m => simp [deepmergeVal, getField, hf]
  | arr a => simp [deepmergeVal, getField, hf]

/-- C3: for every address and partial state, `updateStore` replaces the
per-address account-state record with the deep-merge of the existing record
(or, when no truthy record exists for that address, a fresh copy of the
default account state) with the new partial state, and returns the merged
record.  With no address argument (modelled `""`), the currently selected
address is used. -/
theorem updateStore_deepmerges (env : Env) (st : PrefStoreState) (p : JSVal)
    (address : String) :
    (updateStore (dflt env) st p address).2
        = deepmergeVal
            (jsOrOpt (findKey st.accounts (if address = "" then st.selectedAddress else address))
              (dflt env)) p
      ∧ findKey (updateStore (dflt env) st p address).1.accounts
            (if address = "" then st.selectedAddress else address)
          = some (deepmergeVal
              (jsOrOpt (findKey st.accounts (if address = "" then st.selectedAddress else address))
                (dflt env)) p) := by
  refine ⟨rfl, ?_⟩
  simp [updateStore, findKey_setKey_self]

/-- C8: `updateStore` changes only the entry for the given address (the
currently selected address when none is passed): the `selectedAddress` field
and the record of every other address are unchanged. -/
theorem updateStore_frame (env : Env) (st : PrefStoreState) (p : JSVal)
    (address other : String)
    (h : other ≠ (if address = "" then st.selectedAddress else address)) :
    (updateStore (dflt env) st p address).1.selectedAddress = st.selectedAddress
      ∧ findKey (updateStore (dflt env) st p address).1.accounts other
          = findKey st.accounts other := by
  refine ⟨rfl, ?_⟩
  simp only [updateStore]
  exact findKey_setKey_other _ _ _ _ h

theorem updateStore_frame_witness :
    findKey ((updateStore (dflt envW)
        { selectedAddress := "0xa", accounts := [("0xb", .obj [])] }
        (.obj [("theme", .str "dark")]) "0xa").1.accounts) "0xb"
      = some (.obj []) := by
  have h := updateStore_frame envW
    { selectedAddress := "0xa", accounts := [("0xb", .obj [])] }
    (.obj [("theme", .str "dark")]) "0xa" "0xb" (by simp)
  rw [h.2]
  rfl

/-- C7: clicking the close button of the PopupLogin dialog invokes
`closeDialog`, which emits the `closeDialog` event to the parent component,
leaving the component's local state unchanged. -/
theorem closeBtnClick_emits (s : PopupLoginState) :
    closeBtnClick s = closeDialog s ∧ (closeBtnClick s).2 = ["closeDialog"]
      ∧ (closeBtnClick s).1 = s :=
  ⟨rfl, rfl, rfl⟩

/-- C10: without a truthy `jwtToken` in the account state consulted for
`userAddress`, `getNfts` resolves with `{ data: [] }` and makes no HTTP
request; with one, it issues the NFTs request and returns its result. -/
theorem getNfts_guard (apiResp : Except String JSVal) (st : CtrlState)
    (userAddress network : String) :
    (jsTruthy (getField (jsOrOpt (stateOf st.store userAddress) .undefined) "jwtToken") = false →
        getNfts apiResp st userAddress network = (.ok (.obj [("data", .arr [])]), []))
  ∧ (jsTruthy (getField (jsOrOpt (stateOf st.store userAddress) .undefined) "jwtToken") = true →
        getNfts apiResp st userAddress network
          = (apiResp, [Effect.apiCall ("getNfts:" ++ userAddress ++ ":" ++ network)])) := by
  constructor <;> intro h <;> simp [getNfts, h]

theorem getNfts_guard_witness :
    getNfts (.ok (.str "resp")) ctrlW "0xa" "mainnet" = (.ok (.obj [("data", .arr [])]), [])
      ∧ getNfts (.ok (.str "resp")) ctrlA "0xa" "mainnet"
          = (.ok (.str "resp"), [Effect.apiCall "getNfts:0xa:mainnet"]) :=
  ⟨(getNfts_guard (.ok (.str "resp")) ctrlW "0xa" "mainnet").1 rfl,
   (getNfts_guard (.ok (.str "resp")) ctrlA "0xa" "mainnet").2 rfl⟩

/-- C6 counterexample: the claim says any value that is neither Error-like,
nor a non-empty string, nor an object is stored as the empty string, and
that objects are stored as their bare pretty-print; but `handleError(42)`
stores `42` itself (line 167, `error || ''` with truthy `error`), and an
object is stored with an `Error: ` prefix (line 164). -/
theorem handleError_claim_counterexample :
    (handleError envW ctrlW (.num 42)).1.errorStore = .num 42
  ∧ JSVal.num 42 ≠ JSVal.str ""
  ∧ (handleError envW ctrlW (.obj [("a", .str "b")])).1.errorStore
      = .str ("Error: " ++ prettyPrintData (.obj [("a", .str "b")]))
  ∧ JSVal.str ("Error: " ++ prettyPrintData (.obj [("a", .str "b")]))
      ≠ .str (prettyPrintData (.obj [("a", .str "b")])) := by
  refine ⟨rfl, by simp, rfl, ?_⟩
  intro h
  exact absurd (JSVal.str.inj h) (by decide)

/-- C6 (amended): `handleError` writes to the error store — an Error-like
object maps to "Oops, That didn't work. Pls reload and try again." followed
by the error's message; a non-empty string is stored as itself; any other
truthy object is stored as `Error: ` followed by its pretty-print (or a
fixed fallback when the pretty-print is empty); any other truthy value is
stored as itself; falsy values are stored as the empty string — and a reset
of the store to the empty string is scheduled after `ERROR_TIME`;
`handleSuccess` behaves analogously with the success store, a `Success: `
prefix and `SUCCESS_TIME`. -/
theorem handleError_handleSuccess_spec (env : Env) (st : CtrlState) (m s : String)
    (fields : List (String × JSVal)) (n : Int) (hs : s ≠ "") (hn : n ≠ 0) :
    handleError env st (.errObj m)
        = ({ st with errorStore :=
              JSVal.str ("Oops, That didn't work. Pls reload and try again. \n" ++ m) },
           [Effect.schedulePut "error" (.str "") env.errorTime])
  ∧ handleError env st (.str s)
        = ({ st with errorStore := .str s },
           [Effect.schedulePut "error" (.str "") env.errorTime])
  ∧ handleError env st (.obj fields)
        = ({ st with errorStore :=
              if prettyPrintData (.obj fields) ≠ "" then
                JSVal.str ("Error: " ++ prettyPrintData (.obj fields))
              else JSVal.str "Something went wrong. Pls try again" },
           [Effect.schedulePut "error" (.str "") env.errorTime])
  ∧ handleError env st (.num n)
        = ({ st with errorStore := .num n },
           [Effect.schedulePut "error" (.str "") env.errorTime])
  ∧ handleError env st .undefined
        = ({ st with errorStore := .str "" },
           [Effect.schedulePut "error" (.str "") env.errorTime])
  ∧ handleSuccess env st (.str s)
        = ({ st with successStore := .str s },
           [Effect.schedulePut "success" (.str "") env.successTime])
  ∧ handleSuccess env st (.obj fields)
        = ({ st with successStore :=
              if prettyPrintData (.obj fields) ≠ "" then
                JSVal.str ("Success: " ++ prettyPrintData (.obj fields))
              else JSVal.str "Success" },
           [Effect.schedulePut "success" (.str "") env.successTime])
  ∧ handleSuccess env st .undefined
        = ({ st with successStore := .str "" },
           [Effect.schedulePut "success" (.str "") env.successTime]) := by
  refine ⟨rfl, ?_, ?_, ?_, rfl, ?_, ?_, rfl⟩
  · simp [handleError, handleErrorStored, isErrorObject, jsTruthy, isStrVal, hs]
  · simp [handleError, handleErrorStored, isErrorObject, jsTruthy, isStrVal, isObjTypeof]
  · simp [handleError, handleErrorStored, isErrorObject, jsTruthy, isStrVal, isObjTypeof,
      jsOr, hn]
  · simp [handleSuccess, handleSuccessStored, jsTruthy, isStrVal, hs]
  · simp [handleSuccess, handleSuccessStored, jsTruthy, isStrVal, isObjTypeof]

theorem handleError_handleSuccess_spec_witness :
    handleError envW ctrlW (.str "boom")
        = ({ ctrlW with errorStore := .str "boom" },
           [Effect.schedulePut "error" (.str "") envW.errorTime])
      ∧ handleSuccess envW ctrlW (.str "yay")
          = ({ ctrlW with successStore := .str "yay" },
             [Effect.schedulePut "success" (.str "") envW.successTime]) :=
  ⟨(handleError_handleSuccess_spec envW ctrlW "m" "boom" [] 1 (by decide) (by decide)).2.1,
   (handleError_handleSuccess_spec envW ctrlW "m" "yay" [] 1 (by decide) (by decide)).2.2.2.2.2.1⟩

theorem jsOrOpt_some_truthy (v b : JSVal) (h : jsTruthy v = true) :
    jsOrOpt (some v) b = v := by
  simp [jsOrOpt, h]

theorem stateOf_updateStore_self (d : JSVal) (s : PrefStoreState) (p : JSVal) :
    stateOf (updateStore d s p "").1 ""
      = some (deepmergeVal (jsOrOpt (findKey s.accounts s.selectedAddress) d) p) := by
  simp [stateOf, updateStore, findKey_setKey_self]

/-- C4: `setUserTheme` with a payload equal to the stored theme performs no
API call and changes nothing; with a different payload, a successful PATCH
stores the payload as the selected address's theme and sets the success
message, while a failed PATCH leaves the store untouched and sets the error
message. -/
theorem setUserTheme_spec (env : Env) (st : CtrlState) (payload : String) (e : String) :
    (jsStrictEqStr (getField (jsOrOpt (stateOf st.store "") .undefined) "theme") payload = true →
        ∀ pr, setUserTheme env pr st payload = (st, []))
  ∧ (jsStrictEqStr (getField (jsOrOpt (stateOf st.store "") .undefined) "theme") payload = false →
        (getField (jsOrOpt (stateOf (setUserTheme env (.ok ()) st payload).1.store "") .undefined)
              "theme" = .str payload
          ∧ (setUserTheme env (.ok ()) st payload).1.successStore
              = .str "navBar.snackSuccessTheme")
      ∧ ((setUserTheme env (.error e) st payload).1.store = st.store
          ∧ (setUserTheme env (.error e) st payload).1.errorStore
              = .str "navBar.snackFailTheme")) := by
  constructor
  · intro h pr
    simp [setUserTheme, h]
  · intro h
    have hstore : (setUserTheme env (.ok ()) st payload).1.store
        = (updateStore (dflt env) st.store (.obj [("theme", .str payload)]) "").1 := by
      simp [setUserTheme, h, updateStoreC, handleSuccess]
    refine ⟨⟨?_, ?_⟩, ?_, ?_⟩
    · rw [hstore, stateOf_updateStore_self,
        jsOrOpt_some_truthy _ _ (jsTruthy_deepmerge_obj _ _)]
      exact getField_deepmerge_override _ _ _ _ (by simp [findKey]) (fun v => rfl)
    · simp [setUserTheme, h, updateStoreC, handleSuccess, handleSuccessStored,
        jsTruthy, isStrVal]
    · simp [setUserTheme, h, handleError]
    · simp [setUserTheme, h, handleError, handleErrorStored, isErrorObject,
        jsTruthy, isStrVal]

theorem setUserTheme_spec_witness :
    ((setUserTheme envW (.ok ()) ctrlW "dark").1.successStore
        = .str "navBar.snackSuccessTheme")
      ∧ getField (jsOrOpt (stateOf (setUserTheme envW (.ok ()) ctrlW "dark").1.store "") .undefined)
            "theme" = .str "dark" :=
  ⟨((setUserTheme_spec envW ctrlW "dark" "err").2 rfl).1.2,
   ((setUserTheme_spec envW ctrlW "dark" "err").2 rfl).1.1⟩

/-- C5: the two concurrent order fetches fired by `sync` and the
announcements fetch of `getAnnouncementsContents` are each caught and
logged: no exception propagates (the caught user-fetch failure resolves to
`undefined`), `sync`'s return value depends only on the user fetch and is
unaffected by order-fetch failures, and an announcements-fetch failure
leaves the announcements store unchanged. -/
theorem sync_nonCritical_failures (env : Env)
    (u : Except String (Option SyncUser))
    (w w' : Except String (Option (List RawTx)))
    (p p' : Except String (Option (List RawPayment)))
    (ew ep ea : String) (address : String) (st : CtrlState) :
    (sync env u w p address st).1
        = (match u with | .ok r => r | .error _ => none)
  ∧ (sync env u w p address st).1 = (sync env u w' p' address st).1
  ∧ Effect.log ("unable to fetch wallet orders: " ++ ew)
      ∈ (sync env u (.error ew) p address st).2.2
  ∧ Effect.log ("unable to fetch past orders: " ++ ep)
      ∈ (sync env u w (.error ep) address st).2.2
  ∧ (getAnnouncementsContents (.error ea) st).1.announcementsStore
      = st.announcementsStore := by
  have hret : ∀ (w₀ : Except String (Option (List RawTx)))
      (p₀ : Except String (Option (List RawPayment))),
      (sync env u w₀ p₀ address st).1
        = (match u with | .ok r => r | .error _ => none) := by
    intro w₀ p₀
    rcases u with e | o
    · rfl
    · rcases o with _ | v <;> rfl
  refine ⟨hret w p, (hret w p).trans (hret w' p').symm, ?_, ?_, ?_⟩
  · rcases u with e | o
    · simp [sync, syncFinally]
    · rcases o with _ | v <;> simp [sync, syncFinally]
  · rcases u with e | o
    · rcases w with e' | o' <;> simp [sync, syncFinally]
    · rcases o with _ | v <;> rcases w with e' | o' <;> simp [sync, syncFinally]
  · by_cases hsel : st.store.selectedAddress = "" <;>
      simp [getAnnouncementsContents, hsel]

/-- C9: `init` is idempotent per address: with a (truthy) account-state
record already present for the address, it immediately returns the record's
`defaultPublicAddress` — or the address itself when that field is falsy
(empty or absent) — with the controller state unchanged and no effects
(in particular no API call). -/
theorem init_idempotent (env : Env) (ie : InitEnv) (address : String) (st : CtrlState)
    (r : JSVal) (h : stateOf st.store address = some r) (hr : jsTruthy r = true) :
    init env ie address st
        = .ok (jsOr (getField r "defaultPublicAddress") (.str address), st, [])
  ∧ (jsTruthy (getField r "defaultPublicAddress") = false →
        init env ie address st = .ok (.str address, st, [])) := by
  constructor
  · simp [init, h, hr]
  · intro hf
    simp [init, h, hr, jsOr, hf]

theorem init_idempotent_witness :
    init envW ieW "0xa" ctrlA = .ok (.str "0xa", ctrlA, []) :=
  (init_idempotent envW ieW "0xa" ctrlA (.obj [("jwtToken", .str "tok")])
    rfl rfl).2 rfl

theorem calcStep_foldl (env : Env) (addrLower : String) (l : List RawTx)
    (acc : List Tx × List RawTx) :
    l.foldl (calcStep env addrLower) acc
      = (acc.1 ++ (l.filter (fun x =>
            txMatches env.netId addrLower x && x.status == "confirmed")).map
              (fun x => env.fmt x addrLower),
         acc.2 ++ l.filter (fun x =>
            txMatches env.netId addrLower x && !(x.status == "confirmed"))) := by
  induction l generalizing acc with
  | nil => simp
  | cons x rest ih =>
      rw [List.foldl_cons, ih]
      by_cases hm : txMatches env.netId addrLower x = true
      · by_cases hc : x.status = "confirmed"
        · simp [calcStep, hm, hc]
        · simp [calcStep, hm, hc]
      · simp [calcStep, hm]

/-- C2: `calculatePastTx` stores under `pastTransactions` exactly the
formatted transactions whose network equals the current network identifier,
whose `to` and `from` are present, and whose `from` or `to` equals the
address case-insensitively: confirmed ones formatted directly, the others
with their status replaced by the on-chain lookup result, merged into one
list and passed through the nonce-collision cancel calculation before being
stored. -/
theorem calculatePastTx_spec (env : Env) (txs : List RawTx) (address : String)
    (st : CtrlState) :
    (calculatePastTx env txs address).pastTransactions
        = cancelTxCalculate env.fT env.fD
            ((txs.filter (fun x =>
                txMatches env.netId address.toLower x && x.status == "confirmed")).map
                  (fun x => env.fmt x address.toLower)
              ++ (txs.filter (fun x =>
                  txMatches env.netId address.toLower x && !(x.status == "confirmed"))).map
                    (fun x => { env.fmt x address.toLower with
                                status := env.ethStatus x.transaction_hash }))
  ∧ getField (jsOrOpt (stateOf (calculatePastTxStore env txs address st).1.store address) .undefined)
        "pastTransactions"
      = .arr (((calculatePastTx env txs address).pastTransactions).map txToJSVal) := by
  constructor
  · show cancelTxCalculate env.fT env.fD
        ((txs.foldl (calcStep env address.toLower) ([], [])).1 ++
          ((txs.foldl (calcStep env address.toLower) ([], [])).2).map
            (fun x => { env.fmt x address.toLower with
                        status := env.ethStatus x.transaction_hash })) = _
    rw [calcStep_foldl]
    simp
  · show getField (jsOrOpt (stateOf
        (updateStore (dflt env) st.store
          (.obj [("pastTransactions",
            .arr (((calculatePastTx env txs address).pastTransactions).map txToJSVal))])
          address).1 address) .undefined) "pastTransactions" = _
    simp only [stateOf, updateStore]
    rw [findKey_setKey_self, jsOrOpt_some_truthy _ _ (jsTruthy_deepmerge_obj _ _)]
    exact getField_deepmerge_override _ _ _ _ (by simp [findKey])
      (fun v => by simp [deepmergeVal, isMergeableJS])

theorem mem_insertByDateDesc (x y : Nat × Tx) (l : List (Nat × Tx)) :
    y ∈ insertByDateDesc x l ↔ y = x ∨ y ∈ l := by
  induction l with
  | nil => simp [insertByDateDesc]
  | cons z rest ih =>
      by_cases h : z.2.date < x.2.date
      · simp only [insertByDateDesc, if_pos h, List.mem_cons]
      · simp only [insertByDateDesc, if_neg h, List.mem_cons, ih]
        tauto

theorem pairwise_insertByDateDesc (x : Nat × Tx) (l : List (Nat × Tx))
    (hl : l.Pairwise (fun a b => b.2.date ≤ a.2.date)) :
    (insertByDateDesc x l).Pairwise (fun a b => b.2.date ≤ a.2.date) := by
  induction l with
  | nil => simp [insertByDateDesc]
  | cons z rest ih =>
      rcases List.pairwise_cons.mp hl with ⟨hz, hrest⟩
      by_cases h : z.2.date < x.2.date
      · rw [insertByDateDesc, if_pos h]
        refine List.pairwise_cons.mpr ⟨?_, hl⟩
        intro b hb
        rcases List.mem_cons.mp hb with rfl | hb'
        · exact le_of_lt h
        · exact le_trans (hz b hb') (le_of_lt h)
      · rw [insertByDateDesc, if_neg h]
        refine List.pairwise_cons.mpr ⟨?_, ih hrest⟩
        intro b hb
        rcases (mem_insertByDateDesc x b rest).mp hb with rfl | hb'
        · exact le_of_not_lt h
        · exact hz b hb'

theorem mem_foldl_insertByDateDesc (l acc : List (Nat × Tx)) (y : Nat × Tx) :
    y ∈ l.foldl (fun a x => insertByDateDesc x a) acc ↔ y ∈ acc ∨ y ∈ l := by
  induction l generalizing acc with
  | nil => simp
  | cons z rest ih =>
      rw [List.foldl_cons, ih, mem_insertByDateDesc]
      simp [List.mem_cons]
      tauto

theorem mem_sortByDateDesc (l : List (Nat × Tx)) (y : Nat × Tx) :
    y ∈ sortByDateDesc l ↔ y ∈ l := by
  rw [sortByDateDesc, mem_foldl_insertByDateDesc]
  simp

theorem pairwise_foldl_insertByDateDesc (l acc : List (Nat × Tx))
    (ha : acc.Pairwise (fun a b => b.2.date ≤ a.2.date)) :
    (l.foldl (fun a x => insertByDateDesc x a) acc).Pairwise
      (fun a b => b.2.date ≤ a.2.date) := by
  induction l generalizing acc with
  | nil => exact ha
  | cons z rest ih => exact ih _ (pairwise_insertByDateDesc z acc ha)

theorem pairwise_sortByDateDesc (l : List (Nat × Tx)) :
    (sortByDateDesc l).Pairwise (fun a b => b.2.date ≤ a.2.date) :=
  pairwise_foldl_insertByDateDesc l [] (by simp)

theorem head_max_of_pairwise (l : List (Nat × Tx))
    (h : l.Pairwise (fun a b => b.2.date ≤ a.2.date))
    (q : Nat × Tx) (hq : l.head? = some q) (y : Nat × Tx) (hy : y ∈ l) :
    y.2.date ≤ q.2.date := by
  cases l with
  | nil => cases hq
  | cons a t =>
      have ha : a = q := Option.some.inj hq
      subst ha
      rcases List.mem_cons.mp hy with rfl | hy'
      · exact le_refl _
      · exact (List.pairwise_cons.mp h).1 y hy'

theorem mem_groupOf (txs : List Tx) (n : Nat) (j : Nat) (y : Tx) :
    (j, y) ∈ groupOf txs n ↔ txs.get? j = some y ∧ y.nonce = n := by
  rw [groupOf, List.mem_filter, List.mk_mem_enum_iff_get?]
  constructor
  · rintro ⟨h1, h2⟩
    exact ⟨h1, by simpa using h2⟩
  · rintro ⟨h1, h2⟩
    exact ⟨h1, by simpa using h2⟩

theorem length_cancelTxCalculate (fT fD : Int → String) (txs : List Tx) :
    (cancelTxCalculate fT fD txs).length = txs.length := by
  simp [cancelTxCalculate, List.enum_length]

theorem get?_cancelTxCalculate (fT fD : Int → String) (txs : List Tx) (i : Nat) :
    (cancelTxCalculate fT fD txs).get? i
      = (txs.get? i).map (cancelStep fT fD txs i) := by
  simp [cancelTxCalculate, List.get?_map, List.get?_enum, Option.map_map]
  rfl

/-- C1: `cancelTxCalculate` groups the past transactions by nonce.  In every
group with more than one transaction, the transaction picked by the
descending-date sort — which has the maximal date of its group — is marked
`is_cancel := true` (`markLatest`), and every other transaction of the group
gets `hasCancel := true`, status `cancelled` when the latest is `confirmed`
and `cancelling` otherwise, and the latest transaction's `etherscanLink`,
`gas` and `gasPrice` copied onto it as `etherscanLink` / `cancelGas` /
`cancelGasPrice` (`markHasCancel`).  A transaction with a unique nonce is
returned unchanged, and the output has exactly the input transactions:
the same length, the entry at position `i` being the (possibly marked)
input transaction at `i`. -/
theorem cancelTxCalculate_spec (fT fD : Int → String) (txs : List Tx) (i : Nat) (x : Tx)
    (hx : txs.get? i = some x) :
    (cancelTxCalculate fT fD txs).length = txs.length
  ∧ ((groupOf txs x.nonce).length ≤ 1 →
        (cancelTxCalculate fT fD txs).get? i = some x)
  ∧ (1 < (groupOf txs x.nonce).length →
        ∃ j latest,
          (sortByDateDesc (groupOf txs x.nonce)).head? = some (j, latest)
          ∧ txs.get? j = some latest
          ∧ latest.nonce = x.nonce
          ∧ (∀ p ∈ groupOf txs x.nonce, p.2.date ≤ latest.date)
          ∧ (i = j → (cancelTxCalculate fT fD txs).get? i = some (markLatest x))
          ∧ (i ≠ j → (cancelTxCalculate fT fD txs).get? i
              = some (markHasCancel fT fD latest x))) := by
  have hmem : (i, x) ∈ groupOf txs x.nonce := (mem_groupOf txs x.nonce i x).mpr ⟨hx, rfl⟩
  refine ⟨length_cancelTxCalculate fT fD txs, ?_, ?_⟩
  · intro hle
    rw [get?_cancelTxCalculate, hx]
    simp [cancelStep, hle]
  · intro hgt
    have hne : (i, x) ∈ sortByDateDesc (groupOf txs x.nonce) :=
      (mem_sortByDateDesc _ _).mpr hmem
    cases hs : (sortByDateDesc (groupOf txs x.nonce)).head? with
    | none =>
        rw [List.head?_eq_none_iff] at hs
        rw [hs] at hne
        cases hne
    | some q =>
        obtain ⟨j, latest⟩ := q
        have hql : (j, latest) ∈ groupOf txs x.nonce :=
          (mem_sortByDateDesc _ _).mp (List.mem_of_mem_head? (Option.mem_def.mpr hs))
        obtain ⟨hgetj, hnoncej⟩ := (mem_groupOf txs x.nonce j latest).mp hql
        have hnle : ¬ (groupOf txs x.nonce).length ≤ 1 := by omega
        refine ⟨j, latest, rfl, hgetj, hnoncej, ?_, ?_, ?_⟩
        · intro p hp
          exact head_max_of_pairwise _ (pairwise_sortByDateDesc _) (j, latest) hs p
            ((mem_sortByDateDesc _ _).mpr hp)
        · intro hij
          rw [get?_cancelTxCalculate, hx]
          simp [cancelStep, hnle, hs, hij]
        · intro hij
          rw [get?_cancelTxCalculate, hx]
          simp [cancelStep, hnle, hs, hij]

theorem cancelTxCalculate_spec_witness :
    (cancelTxCalculate (fun _ => "t") (fun _ => "d") [txW 1 10]).get? 0 = some (txW 1 10)
  ∧ (cancelTxCalculate (fun _ => "t") (fun _ => "d") [txW 1 10, txW 1 5]).length = 2 := by
  constructor
  · exact (cancelTxCalculate_spec (fun _ => "t") (fun _ => "d") [txW 1 10] 0 (txW 1 10)
      rfl).2.1 (by decide)
  · exact (cancelTxCalculate_spec (fun _ => "t") (fun _ => "d") [txW 1 10, txW 1 5] 0
      (txW 1 10) rfl).1
